import Mathlib

/-!
# Verification of the diagram tool-call orchestration and session-sync core

Shallow embedding of the tool-call handler logic (`display_diagram` /
`edit_diagram` / `append_diagram`), the validation-feedback formatter, and the
in-memory session state / history HTTP server, translated from the repository's
TypeScript/JavaScript sources.  JavaScript `Map`s are modelled as association
lists, timestamps as natural-number milliseconds, and JavaScript's
falsy-coalescing (`a || b`) as explicit helpers.
-/

set_option autoImplicit false
set_option maxRecDepth 8192

/-! ## JavaScript-style helpers -/

/-- JavaScript `a || b` on optional strings: `undefined` and the empty string
are falsy, so they fall through to `b`. -/
def jsOrOptStr (a b : Option String) : Option String :=
  match a with
  | some s => if s = "" then b else some s
  | none => b

/-- Strip leading whitespace characters from a character list. -/
def trimLeadingWs : List Char → List Char
  | [] => []
  | c :: rest => if c.isWhitespace then trimLeadingWs rest else c :: rest

/-- JavaScript `String.prototype.trim`: strip whitespace from both ends.
(Structurally recursive so that concrete instances evaluate in the kernel.) -/
def jsTrim (s : String) : String :=
  ⟨(trimLeadingWs ((trimLeadingWs s.data).reverse)).reverse⟩

/-- JavaScript `String.prototype.startsWith`. -/
def strStartsWith (s p : String) : Bool := p.data.isPrefixOf s.data

/-- JavaScript `s.slice(-n)` for `n > 0`: the last `min n (length s)`
characters. -/
def strTakeRight (s : String) (n : Nat) : String := ⟨s.data.drop (s.data.length - n)⟩

/-- JavaScript `s.substring(0, n)`: the first `min n (length s)` characters. -/
def strTake (s : String) (n : Nat) : String := ⟨s.data.take n⟩

/-- JavaScript `Array.prototype.join("\n")` on a list of lines. -/
def joinLines : List String → String
  | [] => ""
  | [l] => l
  | l :: rest => l ++ "\n" ++ joinLines rest

/-- `needle` occurs verbatim (as a contiguous substring) inside `hay`. -/
def strMentions (needle hay : String) : Prop :=
  ∃ l r : List Char, hay.data = l ++ needle.data ++ r

theorem string_data_append (a b : String) : (a ++ b).data = a.data ++ b.data := by
  cases a; cases b; rfl

theorem strMentions_refl (s : String) : strMentions s s :=
  ⟨[], [], by simp⟩

theorem strMentions_append_right (needle pre hay : String)
    (h : strMentions needle hay) : strMentions needle (pre ++ hay) := by
  obtain ⟨l, r, hh⟩ := h
  exact ⟨pre.data ++ l, r, by simp [string_data_append, hh]⟩

theorem strMentions_append_left (needle hay post : String)
    (h : strMentions needle hay) : strMentions needle (hay ++ post) := by
  obtain ⟨l, r, hh⟩ := h
  exact ⟨l, r ++ post.data, by simp [string_data_append, hh]⟩

/-- A line of the list occurs verbatim in the `join("\n")` of the list. -/
theorem strMentions_joinLines {s : String} :
    ∀ {lines : List String}, s ∈ lines → strMentions s (joinLines lines) := by
  intro lines
  induction lines with
  | nil => intro h; cases h
  | cons l rest ih =>
    intro h
    match rest, h with
    | [], h =>
      have hs : s = l := by cases h with
        | head => rfl
        | tail _ h => cases h
      exact hs ▸ strMentions_refl s
    | r0 :: rs, h =>
      cases h with
      | head =>
        show strMentions s (s ++ "\n" ++ joinLines (r0 :: rs))
        exact strMentions_append_left _ _ _
          (strMentions_append_left _ _ _ (strMentions_refl s))
      | tail _ hmem =>
        show strMentions s (l ++ "\n" ++ joinLines (r0 :: rs))
        exact strMentions_append_right _ _ _ (ih hmem)

theorem joinLines_cons_ne_empty {l : String} (rest : List String)
    (hl : l ≠ "") : joinLines (l :: rest) ≠ "" := by
  intro hcontra
  match rest with
  | [] => exact hl hcontra
  | r0 :: rs =>
    have hdata : (joinLines (l :: r0 :: rs)).data
        = l.data ++ "\n".data ++ (joinLines (r0 :: rs)).data := by
      show (l ++ "\n" ++ joinLines (r0 :: rs)).data = _
      rw [string_data_append, string_data_append]
    rw [hcontra] at hdata
    rcases List.append_eq_nil.mp hdata.symm with ⟨h1, -⟩
    rcases List.append_eq_nil.mp h1 with ⟨h2, -⟩
    exact hl (congrArg String.mk h2)

/-! ## Validation schema (`src/lib/validation-schema.ts`)

`ValidationResultSchema`: a boolean verdict, a list of issues (each with a
`type` drawn from a string enum, a `severity` drawn from the two-value enum
`"critical" | "warning"`, and a free-text `description`), and a list of
free-text suggestions. -/

inductive Severity where
  | critical
  | warning
  deriving DecidableEq, Repr

structure ValidationIssue where
  type : String
  severity : Severity
  description : String
  deriving DecidableEq, Repr

structure ValidationResult where
  valid : Bool
  issues : List ValidationIssue
  suggestions : List String
  deriving DecidableEq, Repr

/-! ## Feedback formatter (`src/lib/diagram-validator.ts`) -/

/-- The per-issue line `  - [${issue.type}] ${issue.description}`. -/
def issueLine (i : ValidationIssue) : String :=
  "  - [" ++ i.type ++ "] " ++ i.description

/-- The `lines` array pushed by `formatValidationFeedback` in its non-empty
branch: header, critical block, warning block, suggestion block, closing
instruction. -/
def feedbackLines (result : ValidationResult) : List String :=
  let criticalIssues := result.issues.filter (fun i => i.severity = Severity.critical)
  let warnings := result.issues.filter (fun i => i.severity = Severity.warning)
  ["DIAGRAM VISUAL VALIDATION FAILED", ""]
  ++ (if criticalIssues.length > 0 then
        ["Critical Issues (must fix):"] ++ criticalIssues.map issueLine ++ [""]
      else [])
  ++ (if warnings.length > 0 then
        ["Warnings:"] ++ warnings.map issueLine ++ [""]
      else [])
  ++ (if result.suggestions.length > 0 then
        ["Suggestions to fix:"] ++ result.suggestions.map (fun s => "  - " ++ s) ++ [""]
      else [])
  ++ ["Please regenerate the diagram with corrected layout to fix these visual issues."]

/-- `formatValidationFeedback`: format validation feedback for display to the
AI model.  Returns `""` when the result passed with no issues; otherwise joins
the pushed line list with `"\n"` (JavaScript `lines.join("\n")`). -/
def formatValidationFeedback (result : ValidationResult) : String :=
  if result.valid && result.issues.length == 0 then ""
  else joinLines (feedbackLines result)

theorem strMentions_trans {a b c : String}
    (hab : strMentions a b) (hbc : strMentions b c) : strMentions a c := by
  obtain ⟨l1, r1, h1⟩ := hab
  obtain ⟨l2, r2, h2⟩ := hbc
  exact ⟨l2 ++ l1, r1 ++ r2, by rw [h2, h1]; simp⟩

theorem strMentions_issueLine (i : ValidationIssue) :
    strMentions ("[" ++ i.type ++ "] " ++ i.description) (issueLine i) := by
  refine ⟨"  - ".data, [], ?_⟩
  show (issueLine i).data = _
  simp only [issueLine, string_data_append, List.append_nil, List.append_assoc]
  rfl

/-- Every issue's rendered line is one of the pushed lines. -/
theorem issueLine_mem_feedbackLines (result : ValidationResult)
    (i : ValidationIssue) (hi : i ∈ result.issues) :
    issueLine i ∈ feedbackLines result := by
  unfold feedbackLines
  cases hsev : i.severity with
  | critical =>
    have hmem : i ∈ result.issues.filter (fun j => j.severity = Severity.critical) :=
      List.mem_filter.mpr ⟨hi, by simp [hsev]⟩
    have hlen : 0 < (result.issues.filter (fun j => j.severity = Severity.critical)).length :=
      List.length_pos.mpr (List.ne_nil_of_mem hmem)
    simp only [hlen, if_pos]
    refine List.mem_append.mpr (Or.inl ?_)
    refine List.mem_append.mpr (Or.inl ?_)
    refine List.mem_append.mpr (Or.inl ?_)
    refine List.mem_append.mpr (Or.inr ?_)
    simp [hlen, List.mem_map]
    exact Or.inr (Or.inl ⟨i, ⟨hi, hsev⟩, rfl⟩)
  | warning =>
    have hmem : i ∈ result.issues.filter (fun j => j.severity = Severity.warning) :=
      List.mem_filter.mpr ⟨hi, by simp [hsev]⟩
    have hlen : 0 < (result.issues.filter (fun j => j.severity = Severity.warning)).length :=
      List.length_pos.mpr (List.ne_nil_of_mem hmem)
    refine List.mem_append.mpr (Or.inl ?_)
    refine List.mem_append.mpr (Or.inl ?_)
    refine List.mem_append.mpr (Or.inr ?_)
    simp [hlen, List.mem_map]
    exact Or.inr (Or.inl ⟨i, ⟨hi, hsev⟩, rfl⟩)

/-- **C5.** `formatValidationFeedback` returns the empty string exactly when
the result is valid and carries zero issues; for any result with a non-empty
issues list it returns a non-empty string mentioning every issue's type and
description verbatim, rendered as `[type] description`.  (The formatter is a
total pure function by construction.) -/
theorem c5_formatValidationFeedback_spec (result : ValidationResult) :
    (formatValidationFeedback result = "" ↔ (result.valid = true ∧ result.issues = [])) ∧
    (result.issues ≠ [] →
      formatValidationFeedback result ≠ "" ∧
      ∀ i ∈ result.issues,
        strMentions ("[" ++ i.type ++ "] " ++ i.description)
          (formatValidationFeedback result)) := by
  have hne : ¬(result.valid && result.issues.length == 0) = true →
      formatValidationFeedback result ≠ "" := by
    intro hcond
    unfold formatValidationFeedback
    rw [if_neg hcond]
    have : feedbackLines result
        = "DIAGRAM VISUAL VALIDATION FAILED" :: ("" :: _) := rfl
    rw [this]
    exact joinLines_cons_ne_empty _ (by decide)
  constructor
  · constructor
    · intro hempty
      by_cases hcond : (result.valid && result.issues.length == 0) = true
      · rw [Bool.and_eq_true] at hcond
        have hl := hcond.2
        simp only [beq_iff_eq] at hl
        exact ⟨hcond.1, List.length_eq_zero.mp hl⟩
      · exact absurd hempty (hne hcond)
    · rintro ⟨hv, hl⟩
      unfold formatValidationFeedback
      rw [if_pos (by simp [hv, hl])]
  · intro hissues
    have hcond : ¬(result.valid && result.issues.length == 0) = true := by
      simp [List.length_eq_zero, hissues]
    refine ⟨hne hcond, ?_⟩
    intro i hi
    have hline : formatValidationFeedback result = joinLines (feedbackLines result) := by
      unfold formatValidationFeedback
      rw [if_neg hcond]
    rw [hline]
    exact strMentions_trans (strMentions_issueLine i)
      (strMentions_joinLines (issueLine_mem_feedbackLines result i hi))

/-! ## Diagram tool handlers (`src/hooks/use-diagram-tool-handlers.ts`)

The hook tracks a per-tool-call validation retry counter in a
`Map<string, number>` (`validationRetryCountRef`), modelled as an association
list, and reports tool results through `addToolOutput` as either a success
`output` or an `output-error` with `errorText`. -/

/-- A tool result delivered through `addToolOutput`: success `output` or
`output-error` `errorText`. -/
inductive ToolOutput where
  | ok (output : String)
  | error (errorText : String)
  deriving DecidableEq, Repr

/-- The `ValidationStatus` values reported to the UI via
`onValidationStateChange`. -/
inductive ValidationStatus where
  | capturing
  | validating
  | failed
  | skipped
  | success
  | successWithWarnings
  | error
  deriving DecidableEq, Repr

/-- JavaScript `Map.get`. -/
def mapGet (m : List (String × Nat)) (k : String) : Option Nat :=
  match m with
  | [] => none
  | (k', v) :: rest => if k' = k then some v else mapGet rest k

/-- JavaScript `Map.set`: replace the entry in place if present, else append. -/
def mapSet (m : List (String × Nat)) (k : String) (v : Nat) : List (String × Nat) :=
  match m with
  | [] => [(k, v)]
  | (k', v') :: rest => if k' = k then (k, v) :: rest else (k', v') :: mapSet rest k v

/-- JavaScript `Map.delete`. -/
def mapDelete (m : List (String × Nat)) (k : String) : List (String × Nat) :=
  m.filter (fun e => e.1 ≠ k)

def MAX_VALIDATION_RETRIES : Nat := 3

/-- The `[Validation attempt ${retryCount + 1}/${MAX_VALIDATION_RETRIES}]`
header prepended to the corrective feedback. -/
def attemptTag (retryCount : Nat) : String :=
  "[Validation attempt " ++ toString (retryCount + 1) ++ "/"
    ++ toString MAX_VALIDATION_RETRIES ++ "]\n"

/-- The decision `handleDisplayDiagram` takes once a validation result for the
captured image is in (source lines around `if (!result.valid)`):
- invalid with `retryCount < MAX_VALIDATION_RETRIES`: bump the counter and
  return corrective feedback to the model (`output-error`, UI status `failed`);
- invalid with the budget exhausted: delete the counter, report `skipped`, and
  accept the diagram with a warning message;
- valid: delete the counter and report success (with warnings if any issues). -/
def validationDecision (retryMap : List (String × Nat)) (toolCallId : String)
    (result : ValidationResult) :
    List (String × Nat) × ValidationStatus × ToolOutput :=
  let retryCount := (mapGet retryMap toolCallId).getD 0
  if !result.valid then
    if retryCount < MAX_VALIDATION_RETRIES then
      (mapSet retryMap toolCallId (retryCount + 1), ValidationStatus.failed,
        ToolOutput.error (attemptTag retryCount ++ formatValidationFeedback result))
    else
      (mapDelete retryMap toolCallId, ValidationStatus.skipped,
        ToolOutput.ok "Diagram displayed (validation issues noted but max retries reached).")
  else
    (mapDelete retryMap toolCallId,
      (if result.issues.length > 0 then ValidationStatus.successWithWarnings
       else ValidationStatus.success),
      ToolOutput.ok "Successfully displayed the diagram.")

/-- Iterate the validation cycle for one tool call: after each corrective
feedback round (UI status `failed`) the model produces a fresh display attempt
and the cycle runs again with the updated retry map; any other status is
terminal.  `k` numbers the attempts, `fuel` bounds the iteration. -/
def cycleTrace (validator : Nat → ValidationResult) (toolCallId : String) :
    Nat → Nat → List (String × Nat) →
      List (ValidationStatus × ToolOutput) × List (String × Nat)
  | 0, _, m => ([], m)
  | fuel + 1, k, m =>
    let d := validationDecision m toolCallId (validator k)
    match d.2.1 with
    | ValidationStatus.failed =>
      let rest := cycleTrace validator toolCallId fuel (k + 1) d.1
      ((d.2.1, d.2.2) :: rest.1, rest.2)
    | _ => ([(d.2.1, d.2.2)], d.1)

/-! ## `handleEditDiagram` (`src/hooks/use-diagram-tool-handlers.ts`)

The operation applier `applyDiagramOperations` is imported from `@/lib/utils`
(not among the sources), so the handler is parameterised over it; likewise
over `onDisplayChart`, which validates and loads a document, returning a
validation error string when the document is rejected (in which case the
displayed state is unchanged).  The first component of the result is the
document standing as the accepted state after the call. -/

structure DiagramOperationError where
  type : String
  cellId : String
  message : String
  deriving DecidableEq, Repr

/-- Result of `applyDiagramOperations`: the mutated document and the list of
per-operation failures. -/
structure ApplyOpsResult where
  result : String
  errors : List DiagramOperationError
  deriving DecidableEq, Repr

/-- The per-failure line `- ${e.type} on cell_id="${e.cellId}": ${e.message}`. -/
def editErrorLine (e : DiagramOperationError) : String :=
  "- " ++ e.type ++ " on cell_id=\"" ++ e.cellId ++ "\": " ++ e.message

def handleEditDiagram {Op : Type}
    (applyDiagramOperations : String → List Op → ApplyOpsResult)
    (onDisplayChart : String → Option String)
    (currentXml : String) (operations : List Op) : String × ToolOutput :=
  let r := applyDiagramOperations currentXml operations
  if r.errors.length > 0 then
    (currentXml, ToolOutput.error
      ("Some operations failed:\n" ++ joinLines (r.errors.map editErrorLine)
        ++ "\n\nCurrent diagram XML:\n```xml\n" ++ currentXml
        ++ "\n```\n\nPlease check the cell IDs and retry."))
  else
    match onDisplayChart r.result with
    | some validationError =>
      (currentXml, ToolOutput.error
        ("Edit produced invalid XML: " ++ validationError
          ++ "\n\nCurrent diagram XML:\n```xml\n" ++ currentXml
          ++ "\n```\n\nPlease fix the operations to avoid structural issues."))
    | none =>
      (r.result, ToolOutput.ok
        ("Successfully applied " ++ toString operations.length
          ++ " operation(s) to the diagram."))

/-! ## `handleAppendDiagram` (`src/hooks/use-diagram-tool-handlers.ts`)

Parameterised over `isMxCellXmlComplete` and `wrapWithMxFile` from
`@/lib/utils` (not among the sources).  The first component of the result is
the new partial-assembly buffer (`partialXmlRef`). -/

def handleAppendDiagram (isMxCellXmlComplete : String → Bool)
    (wrapWithMxFile : String → String) (onDisplayChart : String → Option String)
    (partialXml xml : String) : String × ToolOutput :=
  let trimmed := jsTrim xml
  let isFreshStart :=
    strStartsWith trimmed "<mxGraphModel" || strStartsWith trimmed "<root"
      || strStartsWith trimmed "<mxfile" || strStartsWith trimmed "<mxCell id=\"0\""
      || strStartsWith trimmed "<mxCell id=\"1\""
  if isFreshStart then
    (partialXml, ToolOutput.error
      ("ERROR: You started fresh with wrapper tags. Do NOT include wrapper tags or root cells (id=\"0\", id=\"1\").\n\nContinue from EXACTLY where the partial ended:\n```\n"
        ++ strTakeRight partialXml 500
        ++ "\n```\n\nStart your continuation with the NEXT character after where it stopped."))
  else
    let acc := partialXml ++ xml
    if isMxCellXmlComplete acc then
      match onDisplayChart (wrapWithMxFile acc) with
      | some validationError =>
        ("", ToolOutput.error
          ("Validation error after assembly: " ++ validationError
            ++ "\n\nAssembled XML:\n```xml\n" ++ strTake acc 2000
            ++ "...\n```\n\nPlease use display_diagram with corrected XML."))
      | none => ("", ToolOutput.ok "Diagram assembly complete and displayed successfully.")
    else
      (acc, ToolOutput.error
        ("XML still incomplete (mxCell not closed). Call append_diagram again to continue.\n\nCurrent ending:\n```\n"
          ++ strTakeRight acc 500
          ++ "\n```\n\nContinue from EXACTLY where you stopped."))

/-- Witness for C5 at a concrete validation result with one critical issue and
one warning. -/
theorem c5_witness :
    ([({ type := "overlap", severity := Severity.critical,
         description := "Two boxes overlap" } : ValidationIssue),
      { type := "text", severity := Severity.warning,
        description := "Label clipped" }] ≠ ([] : List ValidationIssue)) ∧
    (formatValidationFeedback
        { valid := false,
          issues := [{ type := "overlap", severity := Severity.critical,
                       description := "Two boxes overlap" },
                     { type := "text", severity := Severity.warning,
                       description := "Label clipped" }],
          suggestions := ["Increase spacing"] } ≠ "" ∧
      ∀ i ∈ [({ type := "overlap", severity := Severity.critical,
                description := "Two boxes overlap" } : ValidationIssue),
             { type := "text", severity := Severity.warning,
               description := "Label clipped" }],
        strMentions ("[" ++ i.type ++ "] " ++ i.description)
          (formatValidationFeedback
            { valid := false,
              issues := [{ type := "overlap", severity := Severity.critical,
                           description := "Two boxes overlap" },
                         { type := "text", severity := Severity.warning,
                           description := "Label clipped" }],
              suggestions := ["Increase spacing"] })) :=
  ⟨by decide,
   (c5_formatValidationFeedback_spec
     { valid := false,
       issues := [{ type := "overlap", severity := Severity.critical,
                    description := "Two boxes overlap" },
                  { type := "text", severity := Severity.warning,
                    description := "Label clipped" }],
       suggestions := ["Increase spacing"] }).2 (by decide)⟩

/-- **C1.** For a tool invocation whose visual validation always returns a
result with a critical issue (and whose results respect the schema invariant
that `valid` implies no critical issue), the validation cycle issues exactly 3
corrective-feedback rounds (`failed`, attempts 1/3, 2/3, 3/3) and then
transitions to the terminal `skipped` state, accepting the diagram with a
warning and clearing the retry counter; no 4th retry is ever issued, for any
iteration budget. -/
theorem c1_validation_retry_bound (validator : Nat → ValidationResult)
    (toolCallId : String) (fuel : Nat) (hfuel : 4 ≤ fuel)
    (hcrit : ∀ n, ∃ i ∈ (validator n).issues, i.severity = Severity.critical)
    (hinv : ∀ n, (validator n).valid = true →
      ∀ i ∈ (validator n).issues, i.severity ≠ Severity.critical) :
    cycleTrace validator toolCallId fuel 0 []
      = ([(ValidationStatus.failed,
            ToolOutput.error (attemptTag 0 ++ formatValidationFeedback (validator 0))),
          (ValidationStatus.failed,
            ToolOutput.error (attemptTag 1 ++ formatValidationFeedback (validator 1))),
          (ValidationStatus.failed,
            ToolOutput.error (attemptTag 2 ++ formatValidationFeedback (validator 2))),
          (ValidationStatus.skipped,
            ToolOutput.ok "Diagram displayed (validation issues noted but max retries reached).")],
         []) := by
  have hvalid : ∀ n, (validator n).valid = false := by
    intro n
    by_contra hcontra
    have hv : (validator n).valid = true := by
      cases h : (validator n).valid with
      | false => exact absurd h hcontra
      | true => rfl
    obtain ⟨i, hi, hc⟩ := hcrit n
    exact hinv n hv i hi hc
  obtain ⟨f, rfl⟩ : ∃ f, fuel = f + 1 + 1 + 1 + 1 := ⟨fuel - 4, by omega⟩
  simp [cycleTrace, validationDecision, mapGet, mapSet, mapDelete, hvalid,
    MAX_VALIDATION_RETRIES]

/-- Witness for C1: a validator always reporting one critical overlap issue,
with budget 4, produces the three feedback rounds and then `skipped`. -/
theorem c1_witness :
    (4 ≤ 4) ∧
    cycleTrace
        (fun _ => { valid := false,
                    issues := [{ type := "overlap", severity := Severity.critical,
                                 description := "Two boxes overlap" }],
                    suggestions := [] })
        "call-1" 4 0 []
      = ([(ValidationStatus.failed,
            ToolOutput.error (attemptTag 0 ++ formatValidationFeedback
              { valid := false,
                issues := [{ type := "overlap", severity := Severity.critical,
                             description := "Two boxes overlap" }],
                suggestions := [] })),
          (ValidationStatus.failed,
            ToolOutput.error (attemptTag 1 ++ formatValidationFeedback
              { valid := false,
                issues := [{ type := "overlap", severity := Severity.critical,
                             description := "Two boxes overlap" }],
                suggestions := [] })),
          (ValidationStatus.failed,
            ToolOutput.error (attemptTag 2 ++ formatValidationFeedback
              { valid := false,
                issues := [{ type := "overlap", severity := Severity.critical,
                             description := "Two boxes overlap" }],
                suggestions := [] })),
          (ValidationStatus.skipped,
            ToolOutput.ok "Diagram displayed (validation issues noted but max retries reached).")],
         []) :=
  ⟨by decide,
   c1_validation_retry_bound
     (fun _ => { valid := false,
                 issues := [{ type := "overlap", severity := Severity.critical,
                              description := "Two boxes overlap" }],
                 suggestions := [] })
     "call-1" 4 (by decide)
     (fun _ => ⟨_, List.mem_singleton.mpr rfl, rfl⟩)
     (fun _ h => by simp at h)⟩

/-- **C2.** For every base document and every batch of edit operations for
which the applier reports at least one failure, `handleEditDiagram` leaves the
base document standing as the accepted state (no partially edited document is
committed) and returns an `output-error` whose text itemizes every failure. -/
theorem c2_edit_batch_atomicity {Op : Type}
    (applyDiagramOperations : String → List Op → ApplyOpsResult)
    (onDisplayChart : String → Option String) (base : String) (operations : List Op)
    (hfail : (applyDiagramOperations base operations).errors ≠ []) :
    (handleEditDiagram applyDiagramOperations onDisplayChart base operations).1 = base ∧
    ∃ errText,
      (handleEditDiagram applyDiagramOperations onDisplayChart base operations).2
        = ToolOutput.error errText ∧
      ∀ e ∈ (applyDiagramOperations base operations).errors,
        strMentions (editErrorLine e) errText := by
  have hlen : 0 < (applyDiagramOperations base operations).errors.length :=
    List.length_pos.mpr hfail
  unfold handleEditDiagram
  rw [if_pos hlen]
  refine ⟨rfl, _, rfl, ?_⟩
  intro e he
  apply strMentions_append_left
  apply strMentions_append_left
  apply strMentions_append_left
  apply strMentions_append_right
  exact strMentions_joinLines (List.mem_map.mpr ⟨e, he, rfl⟩)

/-- Witness for C2: an applier that fails a `delete_node` on cell id 9. -/
theorem c2_witness :
    ((fun (_ : String) (_ : List Unit) =>
        ({ result := "mutated",
           errors := [{ type := "delete_node", cellId := "9",
                        message := "Cell not found" }] } : ApplyOpsResult))
       "<base/>" [()]).errors ≠ [] ∧
    ((handleEditDiagram
        (fun (_ : String) (_ : List Unit) =>
          ({ result := "mutated",
             errors := [{ type := "delete_node", cellId := "9",
                          message := "Cell not found" }] } : ApplyOpsResult))
        (fun _ => none) "<base/>" [()]).1 = "<base/>" ∧
      ∃ errText,
        (handleEditDiagram
            (fun (_ : String) (_ : List Unit) =>
              ({ result := "mutated",
                 errors := [{ type := "delete_node", cellId := "9",
                              message := "Cell not found" }] } : ApplyOpsResult))
            (fun _ => none) "<base/>" [()]).2 = ToolOutput.error errText ∧
        ∀ e ∈ ({ result := "mutated",
                 errors := [{ type := "delete_node", cellId := "9",
                              message := "Cell not found" }] } : ApplyOpsResult).errors,
          strMentions (editErrorLine e) errText) :=
  ⟨by decide,
   c2_edit_batch_atomicity
     (fun (_ : String) (_ : List Unit) =>
       ({ result := "mutated",
          errors := [{ type := "delete_node", cellId := "9",
                       message := "Cell not found" }] } : ApplyOpsResult))
     (fun _ => none) "<base/>" [()] (by decide)⟩

/-- **C6.** A continuation fragment that (after trimming) begins with a
wrapper marker or a reserved-root-id cell marker is rejected by
`handleAppendDiagram`: the partial assembly buffer is left unchanged and the
tool result is an `output-error` whose corrective instruction quotes the
buffer's tail (its last 500 characters). -/
theorem c6_append_fresh_start_rejected (isMxCellXmlComplete : String → Bool)
    (wrapWithMxFile : String → String) (onDisplayChart : String → Option String)
    (partialXml xml : String)
    (hfresh : (strStartsWith (jsTrim xml) "<mxGraphModel"
      || strStartsWith (jsTrim xml) "<root"
      || strStartsWith (jsTrim xml) "<mxfile"
      || strStartsWith (jsTrim xml) "<mxCell id=\"0\""
      || strStartsWith (jsTrim xml) "<mxCell id=\"1\"") = true) :
    (handleAppendDiagram isMxCellXmlComplete wrapWithMxFile onDisplayChart
        partialXml xml).1 = partialXml ∧
    ∃ errText,
      (handleAppendDiagram isMxCellXmlComplete wrapWithMxFile onDisplayChart
          partialXml xml).2 = ToolOutput.error errText ∧
      strMentions (strTakeRight partialXml 500) errText := by
  unfold handleAppendDiagram
  rw [if_pos hfresh]
  refine ⟨rfl, _, rfl, ?_⟩
  apply strMentions_append_left
  apply strMentions_append_right
  exact strMentions_refl _

/-- Witness for C6: a continuation fragment starting with `<root` against a
buffer `"abcdef"`. -/
theorem c6_witness :
    ((strStartsWith (jsTrim "  <root x>") "<mxGraphModel"
      || strStartsWith (jsTrim "  <root x>") "<root"
      || strStartsWith (jsTrim "  <root x>") "<mxfile"
      || strStartsWith (jsTrim "  <root x>") "<mxCell id=\"0\""
      || strStartsWith (jsTrim "  <root x>") "<mxCell id=\"1\"") = true) ∧
    ((handleAppendDiagram (fun _ => true) id (fun _ => none)
        "abcdef" "  <root x>").1 = "abcdef" ∧
      ∃ errText,
        (handleAppendDiagram (fun _ => true) id (fun _ => none)
            "abcdef" "  <root x>").2 = ToolOutput.error errText ∧
        strMentions (strTakeRight "abcdef" 500) errText) :=
  ⟨by decide,
   c6_append_fresh_start_rejected (fun _ => true) id (fun _ => none)
     "abcdef" "  <root x>" (by decide)⟩

/-! ## Session state store and HTTP API (the embedded MCP HTTP server module)

The server keeps `stateStore`, a `Map<string, SessionState>`, modelled as an
association list; `Date` timestamps are milliseconds as `Nat`. -/

/-- Association-list lookup (JavaScript `Map.get` / `Map.has`). -/
def alistGet {α : Type} (m : List (String × α)) (k : String) : Option α :=
  match m with
  | [] => none
  | (k', v) :: rest => if k' = k then some v else alistGet rest k

/-- Association-list insert-or-replace (JavaScript `Map.set`). -/
def alistSet {α : Type} (m : List (String × α)) (k : String) (v : α) :
    List (String × α) :=
  match m with
  | [] => [(k, v)]
  | (k', v') :: rest => if k' = k then (k, v) :: rest else (k', v') :: alistSet rest k v

/-- Association-list removal (JavaScript `Map.delete`). -/
def alistRemove {α : Type} (m : List (String × α)) (k : String) :
    List (String × α) :=
  m.filter (fun e => e.1 ≠ k)

/-- The `exportFormat` field: `"png" | "svg"`. -/
inductive ExportFormat where
  | png
  | svg
  deriving DecidableEq, Repr

/-- `SessionState` (the TypeScript interface; `xml` is optional here because
the JavaScript handler stores whatever `data.xml` holds). -/
structure SessionState where
  xml : Option String
  version : Nat
  lastUpdated : Nat
  svg : Option String := none
  syncRequested : Option Nat := none
  exportFormat : Option ExportFormat := none
  exportData : Option String := none
  deriving DecidableEq, Repr

def StateStore : Type := List (String × SessionState)

def SESSION_TTL : Nat := 60 * 60 * 1000

/-- `getState`. -/
def getState (store : StateStore) (sessionId : String) : Option SessionState :=
  alistGet store sessionId

/-- `setState(sessionId, xml, svg?) -> version`: creates the session if
absent, `version = (existing?.version || 0) + 1`, stamps `lastUpdated`,
preserves the cached `svg` if the argument is falsy, clears `syncRequested`,
and preserves any pending `exportFormat` / `exportData`. -/
def setState (store : StateStore) (sessionId : String) (xml : Option String)
    (svg : Option String) (now : Nat) : StateStore × Nat :=
  let existing := alistGet store sessionId
  let newVersion := (match existing with | some s => s.version | none => 0) + 1
  (alistSet store sessionId
    { xml := xml
      version := newVersion
      lastUpdated := now
      svg := jsOrOptStr svg (existing.bind (·.svg))
      syncRequested := none
      exportFormat := existing.bind (·.exportFormat)
      exportData := existing.bind (·.exportData) },
   newVersion)

/-- `isLikelyMcpSessionId`: cheap shape check guarding lazy creation. -/
def isLikelyMcpSessionId (sessionId : String) : Bool :=
  strStartsWith sessionId "mcp-" && sessionId.data.length ≤ 128

/-- The blank bootstrap diagram (`DEFAULT_DIAGRAM_XML`). -/
def DEFAULT_DIAGRAM_XML : String :=
  "<mxfile host=\"app.diagrams.net\"><diagram id=\"blank\" name=\"Page-1\"><mxGraphModel><root><mxCell id=\"0\"/><mxCell id=\"1\" parent=\"0\"/></root></mxGraphModel></diagram></mxfile>"

/-- `ensureSessionStateInitialized`: on first reference to an absent session
whose id matches the recognized shape, write the default blank diagram. -/
def ensureSessionStateInitialized (store : StateStore) (sessionId : String)
    (now : Nat) : StateStore :=
  if sessionId = "" then store
  else if !(isLikelyMcpSessionId sessionId) then store
  else if (alistGet store sessionId).isSome then store
  else (setState store sessionId (some DEFAULT_DIAGRAM_XML) none now).1

/-- An HTTP JSON response: `ok` body or an error status with message. -/
inductive ApiResponse (α : Type) where
  | ok (body : α)
  | err (status : Nat) (message : String)
  deriving DecidableEq, Repr

/-- Body of the `GET /api/state` 200 response:
`{xml, version, syncRequested, exportFormat}` with JavaScript `|| null` /
`|| 0` / `!!` coercions. -/
structure StateGetResponse where
  xml : Option String
  version : Nat
  syncRequested : Bool
  exportFormat : Option ExportFormat
  deriving DecidableEq, Repr

/-- JavaScript `!!x` on an optional numeric timestamp. -/
def jsTruthyOptNat : Option Nat → Bool
  | some t => t != 0
  | none => false

/-- `handleStateApi`, GET branch: 400 without a sessionId, otherwise
lazy-init touch then read. -/
def handleStateGet (store : StateStore) (sessionId : Option String) (now : Nat) :
    StateStore × ApiResponse StateGetResponse :=
  match sessionId with
  | none => (store, ApiResponse.err 400 "sessionId required")
  | some sid =>
    if sid = "" then (store, ApiResponse.err 400 "sessionId required")
    else
      let store' := ensureSessionStateInitialized store sid now
      let state := alistGet store' sid
      (store', ApiResponse.ok
        { xml := match state with
                 | some st => jsOrOptStr st.xml none
                 | none => none
          version := match state with
                     | some st => st.version
                     | none => 0
          syncRequested := match state with
                           | some st => jsTruthyOptNat st.syncRequested
                           | none => false
          exportFormat := match state with
                          | some st => st.exportFormat
                          | none => none })

/-- Parsed body of `POST /api/state`. -/
structure StatePostBody where
  sessionId : Option String
  xml : Option String := none
  svg : Option String := none
  exportData : Option String := none

/-- 200 body of `POST /api/state`: `{success: true}` for an export delivery,
`{success: true, version}` for a write. -/
inductive StatePostResponse where
  | exportAck
  | written (version : Nat)
  deriving DecidableEq, Repr

/-- `handleStateApi`, POST branch: 400 without a sessionId; if the body
carries `exportData` (browser returning an export) store it on an existing
session and clear the pending `exportFormat`, reporting success either way,
touching nothing else; otherwise `setState` with the body's xml and svg. -/
def handleStatePost (store : StateStore) (body : StatePostBody) (now : Nat) :
    StateStore × ApiResponse StatePostResponse :=
  match body.sessionId with
  | none => (store, ApiResponse.err 400 "sessionId required")
  | some sid =>
    if sid = "" then (store, ApiResponse.err 400 "sessionId required")
    else if body.exportData.isSome then
      match alistGet store sid with
      | some st =>
        (alistSet store sid { st with exportData := body.exportData, exportFormat := none },
         ApiResponse.ok StatePostResponse.exportAck)
      | none => (store, ApiResponse.ok StatePostResponse.exportAck)
    else
      let r := setState store sid body.xml body.svg now
      (r.1, ApiResponse.ok (StatePostResponse.written r.2))

/-! ## History log

Modelled from the spec: the per-session history module (`./history.js`) is not
among the sources (only its callers are).  §3 `HistoryEntry`: "ordered,
append-only per-session log of (document, preview image) pairs, each
addressable by its position index"; the TTL sweep "cascades deletion of that
session's history log". -/

/-- Modelled from the spec: one history entry, a (document, preview image)
pair. -/
structure HistoryEntry where
  xml : String
  svg : Option String
  deriving DecidableEq, Repr

def HistoryStore : Type := List (String × List HistoryEntry)

/-- Modelled from the spec: `getHistory` — the session's ordered log. -/
def getHistory (h : HistoryStore) (sessionId : String) : List HistoryEntry :=
  (alistGet h sessionId).getD []

/-- Modelled from the spec: `getHistoryEntry` — position-index addressing. -/
def getHistoryEntry (h : HistoryStore) (sessionId : String) (index : Nat) :
    Option HistoryEntry :=
  (getHistory h sessionId).get? index

/-- Modelled from the spec: `addHistory` — append-only. -/
def addHistory (h : HistoryStore) (sessionId : String) (xml : String)
    (svg : Option String) : HistoryStore :=
  alistSet h sessionId (getHistory h sessionId ++ [{ xml := xml, svg := svg }])

/-- Modelled from the spec: `clearHistory` — delete the session's log. -/
def clearHistory (h : HistoryStore) (sessionId : String) : HistoryStore :=
  alistRemove h sessionId

/-- `handleRestoreApi`: 400 if `sessionId` falsy or `index === undefined`;
404 if the entry is unknown; otherwise `setState` to the entry's document and
append a new history entry with the entry's content, answering
`{success, newVersion}`. -/
def handleRestoreApi (store : StateStore) (history : HistoryStore)
    (sessionId : Option String) (index : Option Nat) (now : Nat) :
    StateStore × HistoryStore × ApiResponse Nat :=
  match sessionId, index with
  | some sid, some idx =>
    if sid = "" then (store, history, ApiResponse.err 400 "sessionId and index required")
    else
      match getHistoryEntry history sid idx with
      | none => (store, history, ApiResponse.err 404 "Entry not found")
      | some entry =>
        let r := setState store sid (some entry.xml) none now
        (r.1, addHistory history sid entry.xml entry.svg, ApiResponse.ok r.2)
  | _, _ => (store, history, ApiResponse.err 400 "sessionId and index required")

/-- `cleanupExpiredSessions`: delete every session whose `lastUpdated` is
older than `SESSION_TTL` at sweep time, cascading `clearHistory`. -/
def cleanupExpiredSessions (store : StateStore) (history : HistoryStore)
    (now : Nat) : StateStore × HistoryStore :=
  match store with
  | [] => ([], history)
  | (sid, st) :: rest =>
    if now - st.lastUpdated > SESSION_TTL then
      cleanupExpiredSessions rest (clearHistory history sid) now
    else
      let r := cleanupExpiredSessions rest history now
      ((sid, st) :: r.1, r.2)

/-! ## Association-list lemmas -/

theorem alistGet_alistSet_self {α : Type} (m : List (String × α)) (k : String) (v : α) :
    alistGet (alistSet m k v) k = some v := by
  induction m with
  | nil => simp [alistSet, alistGet]
  | cons e rest ih =>
    obtain ⟨k', v'⟩ := e
    by_cases h : k' = k
    · simp [alistSet, alistGet, h]
    · simp [alistSet, alistGet, h, ih]

theorem alistGet_alistSet_ne {α : Type} (m : List (String × α)) (k : String) (v : α)
    (k' : String) (h : k' ≠ k) : alistGet (alistSet m k v) k' = alistGet m k' := by
  have hk : ¬(k = k') := fun hh => h hh.symm
  induction m with
  | nil => simp [alistSet, alistGet, hk]
  | cons e rest ih =>
    obtain ⟨k0, v0⟩ := e
    by_cases h0 : k0 = k
    · subst h0
      simp [alistSet, alistGet, hk]
    · simp only [alistSet, if_neg h0]
      by_cases h1 : k0 = k'
      · simp [alistGet, h1]
      · simp [alistGet, h1, ih]

theorem alistGet_alistRemove_self {α : Type} (m : List (String × α)) (k : String) :
    alistGet (alistRemove m k) k = none := by
  induction m with
  | nil => rfl
  | cons e rest ih =>
    obtain ⟨k', v'⟩ := e
    by_cases h : k' = k
    · simp only [alistRemove, List.filter_cons] at ih ⊢
      simpa [h] using ih
    · simp only [alistRemove, List.filter_cons] at ih ⊢
      simpa [h, alistGet] using ih

theorem alistGet_alistRemove_ne {α : Type} (m : List (String × α)) (kdel k : String)
    (h : k ≠ kdel) : alistGet (alistRemove m kdel) k = alistGet m k := by
  induction m with
  | nil => rfl
  | cons e rest ih =>
    obtain ⟨k', v'⟩ := e
    by_cases h0 : k' = kdel
    · subst h0
      have hk : ¬(k' = k) := fun hh => h hh.symm
      simp only [alistRemove, List.filter_cons] at ih ⊢
      simpa [alistGet, hk] using ih
    · simp only [alistRemove, List.filter_cons] at ih ⊢
      by_cases h1 : k' = k
      · simp [h0, alistGet, h1, h]
      · simpa [h0, alistGet, h1] using ih

theorem alistGet_eq_none_of_not_mem {α : Type} {m : List (String × α)} {k : String}
    (h : k ∉ m.map Prod.fst) : alistGet m k = none := by
  induction m with
  | nil => rfl
  | cons e rest ih =>
    obtain ⟨k', v'⟩ := e
    simp only [List.map_cons, List.mem_cons] at h
    push_neg at h
    have hk : ¬(k' = k) := fun hh => h.1 hh.symm
    simp [alistGet, hk, ih h.2]

/-- Looking up the written session after `setState`. -/
theorem setState_lookup (store : StateStore) (sid : String) (xml : Option String)
    (svg : Option String) (now : Nat) :
    getState (setState store sid xml svg now).1 sid
      = some { xml := xml
               version := (match getState store sid with
                           | some st => st.version
                           | none => 0) + 1
               lastUpdated := now
               svg := jsOrOptStr svg ((getState store sid).bind (·.svg))
               syncRequested := none
               exportFormat := (getState store sid).bind (·.exportFormat)
               exportData := (getState store sid).bind (·.exportData) } := by
  simp [setState, getState, alistGet_alistSet_self]

theorem setState_lookup_ne (store : StateStore) (sid : String) (xml : Option String)
    (svg : Option String) (now : Nat) (other : String) (h : other ≠ sid) :
    getState (setState store sid xml svg now).1 other = getState store other := by
  simp [setState, getState, alistGet_alistSet_ne _ _ _ _ h]

/-- **C9.** Every store write (`setState`) creates the session if absent,
returns version = previous version + 1, stamps the write time, stores the new
document, preserves the previous cached preview image when none is supplied,
clears any pending sync-request flag (while preserving pending export state),
and leaves every other session untouched. -/
theorem c9_setState_frame (store : StateStore) (sid : String) (xml : Option String)
    (now : Nat) :
    (setState store sid xml none now).2
      = (match getState store sid with | some st => st.version | none => 0) + 1 ∧
    getState (setState store sid xml none now).1 sid
      = some { xml := xml
               version := (match getState store sid with
                           | some st => st.version
                           | none => 0) + 1
               lastUpdated := now
               svg := (getState store sid).bind (·.svg)
               syncRequested := none
               exportFormat := (getState store sid).bind (·.exportFormat)
               exportData := (getState store sid).bind (·.exportData) } ∧
    ∀ other, other ≠ sid →
      getState (setState store sid xml none now).1 other = getState store other := by
  refine ⟨rfl, ?_, ?_⟩
  · simpa [jsOrOptStr] using setState_lookup store sid xml none now
  · intro other h
    exact setState_lookup_ne store sid xml none now other h

/-- Witness for C9: a write to `"mcp-a"` leaves the unrelated session
`"mcp-b"` untouched (instantiates the frame clause, whose hypothesis
`"mcp-b" ≠ "mcp-a"` is discharged concretely). -/
theorem c9_witness :
    getState (setState
        [("mcp-b", { xml := some "<old/>", version := 4, lastUpdated := 7,
                     svg := some "p" })]
        "mcp-a" (some "<new/>") none 9).1 "mcp-b"
      = getState
          [("mcp-b", { xml := some "<old/>", version := 4, lastUpdated := 7,
                       svg := some "p" })] "mcp-b" :=
  (c9_setState_frame
    [("mcp-b", { xml := some "<old/>", version := 4, lastUpdated := 7,
                 svg := some "p" })]
    "mcp-a" (some "<new/>") 9).2.2 "mcp-b" (by decide)

/-! ## Version monotonicity (sequences of store operations) -/

/-- One store-level operation on a fixed session: an accepted write
(`setState`) or a read (`getState`, which mutates nothing). -/
inductive SessionOp where
  | write (xml : Option String) (svg : Option String) (now : Nat)
  | read

/-- Run a sequence of operations against the store, collecting the version
returned by each write. -/
def runSession (store : StateStore) (sid : String) :
    List SessionOp → StateStore × List Nat
  | [] => (store, [])
  | SessionOp.read :: rest => runSession store sid rest
  | SessionOp.write xml svg now :: rest =>
    let r := setState store sid xml svg now
    let k := runSession r.1 sid rest
    (k.1, r.2 :: k.2)

def countWrites : List SessionOp → Nat
  | [] => 0
  | SessionOp.read :: rest => countWrites rest
  | SessionOp.write _ _ _ :: rest => countWrites rest + 1

theorem runSession_versions (sid : String) :
    ∀ (ops : List SessionOp) (store : StateStore),
      (runSession store sid ops).2
        = List.range'
            ((match getState store sid with | some st => st.version | none => 0) + 1)
            (countWrites ops) := by
  intro ops
  induction ops with
  | nil => intro store; simp [runSession, countWrites]
  | cons op rest ih =>
    intro store
    cases op with
    | read => simpa [runSession, countWrites] using ih store
    | write xml svg now =>
      simp only [runSession, countWrites]
      rw [ih]
      rw [setState_lookup]
      rfl

/-- **C3.** For any session absent from the store, a sequence of operations
containing N accepted writes produces exactly the versions `1, 2, ..., N`, in
order — starting at 1 on the first write, incremented by exactly 1 on each
subsequent write, never decremented or reused — regardless of interleaved
reads. -/
theorem c3_version_monotonic (store : StateStore) (sid : String)
    (ops : List SessionOp) (habsent : getState store sid = none) :
    (runSession store sid ops).2 = List.range' 1 (countWrites ops) := by
  have h := runSession_versions sid ops store
  rw [habsent] at h
  exact h

/-- Witness for C3: write, read, write, write from an empty store yields
versions `[1, 2, 3]`. -/
theorem c3_witness :
    getState ([] : StateStore) "mcp-abc" = none ∧
    (runSession ([] : StateStore) "mcp-abc"
        [SessionOp.write (some "<a/>") none 1, SessionOp.read,
         SessionOp.write (some "<b/>") none 2,
         SessionOp.write (some "<c/>") none 3]).2
      = List.range' 1 (countWrites
          [SessionOp.write (some "<a/>") none 1, SessionOp.read,
           SessionOp.write (some "<b/>") none 2,
           SessionOp.write (some "<c/>") none 3]) :=
  ⟨rfl,
   c3_version_monotonic ([] : StateStore) "mcp-abc"
     [SessionOp.write (some "<a/>") none 1, SessionOp.read,
      SessionOp.write (some "<b/>") none 2,
      SessionOp.write (some "<c/>") none 3] rfl⟩

/-- **C10.** Delivering an export result (`POST /api/state` with an
`exportData` field) reports success whether or not the session exists; when it
exists it stores the payload and clears the pending export-format request,
changing no other field (document, version, preview image, last-updated
timestamp, sync flag all unchanged); when it is absent it stores nothing; and
other sessions are never touched. -/
theorem c10_export_delivery_frame (store : StateStore) (sid : String) (d : String)
    (now : Nat) (hsid : sid ≠ "") :
    (handleStatePost store { sessionId := some sid, exportData := some d } now).2
      = ApiResponse.ok StatePostResponse.exportAck ∧
    (∀ st, getState store sid = some st →
      getState (handleStatePost store
          { sessionId := some sid, exportData := some d } now).1 sid
        = some { st with exportData := some d, exportFormat := none }) ∧
    (getState store sid = none →
      (handleStatePost store { sessionId := some sid, exportData := some d } now).1
        = store) ∧
    (∀ other, other ≠ sid →
      getState (handleStatePost store
          { sessionId := some sid, exportData := some d } now).1 other
        = getState store other) := by
  refine ⟨?_, ?_, ?_, ?_⟩
  · simp only [handleStatePost, if_neg hsid, Option.isSome_some, if_pos]
    cases h : alistGet store sid <;> simp
  · intro st hst
    simp only [getState] at hst
    simp [handleStatePost, if_neg hsid, hst, getState, alistGet_alistSet_self]
  · intro hst
    simp only [getState] at hst
    simp [handleStatePost, if_neg hsid, hst]
  · intro other hother
    simp only [handleStatePost, if_neg hsid, Option.isSome_some, if_pos]
    cases h : alistGet store sid with
    | none => simp
    | some st => simp [getState, alistGet_alistSet_ne _ _ _ _ hother]

/-- Witness for C10: delivering `"PNGDATA"` to session `"mcp-x"` (present,
with a pending png export request) stores the payload, clears the request,
and leaves xml/version/svg/lastUpdated/syncRequested alone. -/
theorem c10_witness :
    ("mcp-x" : String) ≠ "" ∧
    getState [("mcp-x", { xml := some "<x/>", version := 2, lastUpdated := 5,
                          svg := some "s", syncRequested := some 4,
                          exportFormat := some ExportFormat.png })]
        "mcp-x"
      = some { xml := some "<x/>", version := 2, lastUpdated := 5,
               svg := some "s", syncRequested := some 4,
               exportFormat := some ExportFormat.png } ∧
    getState (handleStatePost
        [("mcp-x", { xml := some "<x/>", version := 2, lastUpdated := 5,
                     svg := some "s", syncRequested := some 4,
                     exportFormat := some ExportFormat.png })]
        { sessionId := some "mcp-x", exportData := some "PNGDATA" } 99).1 "mcp-x"
      = some { xml := some "<x/>", version := 2, lastUpdated := 5,
               svg := some "s", syncRequested := some 4,
               exportFormat := none, exportData := some "PNGDATA" } :=
  ⟨by decide, by decide,
   (c10_export_delivery_frame
      [("mcp-x", { xml := some "<x/>", version := 2, lastUpdated := 5,
                   svg := some "s", syncRequested := some 4,
                   exportFormat := some ExportFormat.png })]
      "mcp-x" "PNGDATA" 99 (by decide)).2.1
     { xml := some "<x/>", version := 2, lastUpdated := 5,
       svg := some "s", syncRequested := some 4,
       exportFormat := some ExportFormat.png } (by decide)⟩

/-- **C7.** `POST /api/restore` on an existing history index appends a new
entry equal to entry *i*'s content without truncating any later entry (every
pre-existing index still resolves to the same entry), sets the live document
to that content, and returns the incremented version; an unknown index
answers a 404-shaped not-found error and changes nothing. -/
theorem c7_restore_appends (store : StateStore) (history : HistoryStore)
    (sid : String) (idx : Nat) (now : Nat) (hsid : sid ≠ "") :
    (∀ entry, getHistoryEntry history sid idx = some entry →
      getHistory (handleRestoreApi store history (some sid) (some idx) now).2.1 sid
        = getHistory history sid ++ [{ xml := entry.xml, svg := entry.svg }] ∧
      (∀ j, j < (getHistory history sid).length →
        (getHistory (handleRestoreApi store history (some sid) (some idx) now).2.1 sid).get? j
          = (getHistory history sid).get? j) ∧
      (getState (handleRestoreApi store history (some sid) (some idx) now).1 sid).map (·.xml)
        = some (some entry.xml) ∧
      (handleRestoreApi store history (some sid) (some idx) now).2.2
        = ApiResponse.ok
            ((match getState store sid with | some st => st.version | none => 0) + 1)) ∧
    (getHistoryEntry history sid idx = none →
      handleRestoreApi store history (some sid) (some idx) now
        = (store, history, ApiResponse.err 404 "Entry not found")) := by
  constructor
  · intro entry hentry
    refine ⟨?_, ?_, ?_, ?_⟩
    · simp [handleRestoreApi, if_neg hsid, hentry, addHistory, getHistory,
        alistGet_alistSet_self]
    · intro j hj
      have happ : getHistory
          (handleRestoreApi store history (some sid) (some idx) now).2.1 sid
          = getHistory history sid ++ [{ xml := entry.xml, svg := entry.svg }] := by
        simp [handleRestoreApi, if_neg hsid, hentry, addHistory, getHistory,
          alistGet_alistSet_self]
      rw [happ]
      rw [List.get?_eq_getElem?, List.get?_eq_getElem?]
      exact List.getElem?_append_left hj
    · simp [handleRestoreApi, if_neg hsid, hentry, setState_lookup]
    · simp [handleRestoreApi, if_neg hsid, hentry, setState, getState]
  · intro hentry
    simp [handleRestoreApi, if_neg hsid, hentry]

/-- Witness for C7: restoring index 0 of a two-entry log appends a copy of
entry 0, keeps entries 0 and 1 addressable unchanged, loads entry 0's
document, and answers the incremented version; restoring index 5 of the same
log answers 404. -/
theorem c7_witness :
    (getHistory (handleRestoreApi
        [("mcp-h", { xml := some "<b/>", version := 2, lastUpdated := 3 })]
        [("mcp-h", [{ xml := "<a/>", svg := some "sa" },
                    { xml := "<b/>", svg := none }])]
        (some "mcp-h") (some 0) 10).2.1 "mcp-h"
      = getHistory [("mcp-h", [{ xml := "<a/>", svg := some "sa" },
                               { xml := "<b/>", svg := none }])] "mcp-h"
          ++ [{ xml := "<a/>", svg := some "sa" }]) ∧
    (handleRestoreApi
        [("mcp-h", { xml := some "<b/>", version := 2, lastUpdated := 3 })]
        [("mcp-h", [{ xml := "<a/>", svg := some "sa" },
                    { xml := "<b/>", svg := none }])]
        (some "mcp-h") (some 5) 10
      = ([("mcp-h", { xml := some "<b/>", version := 2, lastUpdated := 3 })],
         [("mcp-h", [{ xml := "<a/>", svg := some "sa" },
                     { xml := "<b/>", svg := none }])],
         ApiResponse.err 404 "Entry not found")) :=
  ⟨((c7_restore_appends
      [("mcp-h", { xml := some "<b/>", version := 2, lastUpdated := 3 })]
      [("mcp-h", [{ xml := "<a/>", svg := some "sa" },
                  { xml := "<b/>", svg := none }])]
      "mcp-h" 0 10 (by decide)).1
      { xml := "<a/>", svg := some "sa" } (by decide)).1,
   (c7_restore_appends
      [("mcp-h", { xml := some "<b/>", version := 2, lastUpdated := 3 })]
      [("mcp-h", [{ xml := "<a/>", svg := some "sa" },
                  { xml := "<b/>", svg := none }])]
      "mcp-h" 5 10 (by decide)).2 (by decide)⟩

/-! ## TTL sweep lemmas -/

theorem cleanup_store_absent {sid : String} {now : Nat} :
    ∀ (store : StateStore) (history : HistoryStore),
      alistGet store sid = none →
      alistGet (cleanupExpiredSessions store history now).1 sid = none := by
  intro store
  induction store with
  | nil => intro history _; simp [cleanupExpiredSessions, alistGet]
  | cons e rest ih =>
    intro history h
    obtain ⟨k, v⟩ := e
    have hk : ¬(k = sid) := by
      intro hh
      simp [alistGet, hh] at h
    have hrest : alistGet rest sid = none := by
      simpa [alistGet, hk] using h
    by_cases hexp : now - v.lastUpdated > SESSION_TTL
    · simpa [cleanupExpiredSessions, hexp] using ih (clearHistory history k) hrest
    · simpa [cleanupExpiredSessions, hexp, alistGet, hk] using ih history hrest

theorem cleanup_history_absent {sid : String} {now : Nat} :
    ∀ (store : StateStore) (history : HistoryStore),
      alistGet store sid = none →
      alistGet (cleanupExpiredSessions store history now).2 sid
        = alistGet history sid := by
  intro store
  induction store with
  | nil => intro history _; simp [cleanupExpiredSessions]
  | cons e rest ih =>
    intro history h
    obtain ⟨k, v⟩ := e
    have hk : ¬(k = sid) := by
      intro hh
      simp [alistGet, hh] at h
    have hrest : alistGet rest sid = none := by
      simpa [alistGet, hk] using h
    by_cases hexp : now - v.lastUpdated > SESSION_TTL
    · have hstep := ih (clearHistory history k) hrest
      rw [show cleanupExpiredSessions ((k, v) :: rest) history now
            = cleanupExpiredSessions rest (clearHistory history k) now by
          simp [cleanupExpiredSessions, hexp]]
      rw [hstep]
      exact alistGet_alistRemove_ne history k sid (fun hh => hk hh.symm)
    · simpa [cleanupExpiredSessions, hexp] using ih history hrest

/-- **C8.** On a sweep tick, every session whose last-updated timestamp is
older than the TTL is removed from the store and its history log is deleted
with it; every session within the TTL keeps its state and its history
untouched.  (Keys are unique, as in the JavaScript `Map`.) -/
theorem c8_ttl_sweep (store : StateStore) (history : HistoryStore) (now : Nat)
    (sid : String) (st : SessionState)
    (hnodup : (store.map Prod.fst).Nodup)
    (hget : getState store sid = some st) :
    (now - st.lastUpdated > SESSION_TTL →
      alistGet (cleanupExpiredSessions store history now).1 sid = none ∧
      alistGet (cleanupExpiredSessions store history now).2 sid = none) ∧
    (¬(now - st.lastUpdated > SESSION_TTL) →
      alistGet (cleanupExpiredSessions store history now).1 sid = some st ∧
      alistGet (cleanupExpiredSessions store history now).2 sid
        = alistGet history sid) := by
  induction store generalizing history with
  | nil => simp [getState, alistGet] at hget
  | cons e rest ih =>
    obtain ⟨k, v⟩ := e
    rw [List.map_cons, List.nodup_cons] at hnodup
    by_cases hk : k = sid
    · subst hk
      have hv : v = st := by
        simpa [getState, alistGet] using hget
      subst hv
      have hrest : alistGet rest k = none := alistGet_eq_none_of_not_mem hnodup.1
      constructor
      · intro hexp
        rw [show cleanupExpiredSessions ((k, v) :: rest) history now
              = cleanupExpiredSessions rest (clearHistory history k) now by
            simp [cleanupExpiredSessions, hexp]]
        refine ⟨cleanup_store_absent rest (clearHistory history k) hrest, ?_⟩
        rw [cleanup_history_absent rest (clearHistory history k) hrest]
        exact alistGet_alistRemove_self history k
      · intro hexp
        rw [show cleanupExpiredSessions ((k, v) :: rest) history now
              = ((k, v) :: (cleanupExpiredSessions rest history now).1,
                 (cleanupExpiredSessions rest history now).2) by
            simp [cleanupExpiredSessions, hexp]]
        exact ⟨by simp [alistGet], cleanup_history_absent rest history hrest⟩
    · have hget' : getState rest sid = some st := by
        simpa [getState, alistGet, hk] using hget
      by_cases hexp : now - v.lastUpdated > SESSION_TTL
      · rw [show cleanupExpiredSessions ((k, v) :: rest) history now
              = cleanupExpiredSessions rest (clearHistory history k) now by
            simp [cleanupExpiredSessions, hexp]]
        have hrec := ih (clearHistory history k) hnodup.2 hget'
        refine ⟨hrec.1, fun hfresh => ⟨(hrec.2 hfresh).1, ?_⟩⟩
        rw [(hrec.2 hfresh).2]
        exact alistGet_alistRemove_ne history k sid (fun hh => hk hh.symm)
      · rw [show cleanupExpiredSessions ((k, v) :: rest) history now
              = ((k, v) :: (cleanupExpiredSessions rest history now).1,
                 (cleanupExpiredSessions rest history now).2) by
            simp [cleanupExpiredSessions, hexp]]
        have hrec := ih history hnodup.2 hget'
        constructor
        · intro hold
          refine ⟨?_, (hrec.1 hold).2⟩
          simp [alistGet, hk]
          exact (hrec.1 hold).1
        · intro hfresh
          refine ⟨?_, (hrec.2 hfresh).2⟩
          simp [alistGet, hk]
          exact (hrec.2 hfresh).1

/-- Witness for C8: with TTL-exceeding age, session `"mcp-old"` (written at
time 0, swept at `SESSION_TTL + 2`) disappears from both the store and the
history, while `"mcp-new"` (written at sweep time) survives with history
intact. -/
theorem c8_witness :
    (alistGet (cleanupExpiredSessions
        [("mcp-old", { xml := some "<o/>", version := 1, lastUpdated := 0 }),
         ("mcp-new", { xml := some "<n/>", version := 1,
                       lastUpdated := SESSION_TTL + 2 })]
        [("mcp-old", [{ xml := "<o/>", svg := none }]),
         ("mcp-new", [{ xml := "<n/>", svg := none }])]
        (SESSION_TTL + 2)).1 "mcp-old" = none ∧
     alistGet (cleanupExpiredSessions
        [("mcp-old", { xml := some "<o/>", version := 1, lastUpdated := 0 }),
         ("mcp-new", { xml := some "<n/>", version := 1,
                       lastUpdated := SESSION_TTL + 2 })]
        [("mcp-old", [{ xml := "<o/>", svg := none }]),
         ("mcp-new", [{ xml := "<n/>", svg := none }])]
        (SESSION_TTL + 2)).2 "mcp-old" = none) ∧
    (alistGet (cleanupExpiredSessions
        [("mcp-old", { xml := some "<o/>", version := 1, lastUpdated := 0 }),
         ("mcp-new", { xml := some "<n/>", version := 1,
                       lastUpdated := SESSION_TTL + 2 })]
        [("mcp-old", [{ xml := "<o/>", svg := none }]),
         ("mcp-new", [{ xml := "<n/>", svg := none }])]
        (SESSION_TTL + 2)).1 "mcp-new"
      = some { xml := some "<n/>", version := 1, lastUpdated := SESSION_TTL + 2 } ∧
     alistGet (cleanupExpiredSessions
        [("mcp-old", { xml := some "<o/>", version := 1, lastUpdated := 0 }),
         ("mcp-new", { xml := some "<n/>", version := 1,
                       lastUpdated := SESSION_TTL + 2 })]
        [("mcp-old", [{ xml := "<o/>", svg := none }]),
         ("mcp-new", [{ xml := "<n/>", svg := none }])]
        (SESSION_TTL + 2)).2 "mcp-new"
      = alistGet [("mcp-old", [{ xml := "<o/>", svg := none }]),
                  ("mcp-new", [{ xml := "<n/>", svg := none }])] "mcp-new") :=
  ⟨(c8_ttl_sweep
      [("mcp-old", { xml := some "<o/>", version := 1, lastUpdated := 0 }),
       ("mcp-new", { xml := some "<n/>", version := 1,
                     lastUpdated := SESSION_TTL + 2 })]
      [("mcp-old", [{ xml := "<o/>", svg := none }]),
       ("mcp-new", [{ xml := "<n/>", svg := none }])]
      (SESSION_TTL + 2) "mcp-old"
      { xml := some "<o/>", version := 1, lastUpdated := 0 }
      (by decide) (by decide)).1 (by decide),
   (c8_ttl_sweep
      [("mcp-old", { xml := some "<o/>", version := 1, lastUpdated := 0 }),
       ("mcp-new", { xml := some "<n/>", version := 1,
                     lastUpdated := SESSION_TTL + 2 })]
      [("mcp-old", [{ xml := "<o/>", svg := none }]),
       ("mcp-new", [{ xml := "<n/>", svg := none }])]
      (SESSION_TTL + 2) "mcp-new"
      { xml := some "<n/>", version := 1, lastUpdated := SESSION_TTL + 2 }
      (by decide) (by decide)).2 (by decide)⟩

/-! ## Lazy initialization of absent sessions (C4) -/

/-- **C4 (counterexample).** For the absent session `"mcp-abc"` (which matches
the recognized id shape), the lazy-init touch performed by
`GET /api/state?sessionId=mcp-abc` does NOT answer version 0 / xml null: it
writes the default blank diagram, answering version 1 with that document, and
the first subsequent `POST /api/state` with an xml body returns version 2,
not 1. -/
theorem c4_counterexample :
    (handleStateGet ([] : StateStore) (some "mcp-abc") 1000).2
      = ApiResponse.ok { xml := some DEFAULT_DIAGRAM_XML, version := 1,
                         syncRequested := false, exportFormat := none } ∧
    (handleStateGet ([] : StateStore) (some "mcp-abc") 1000).2
      ≠ ApiResponse.ok { xml := none, version := 0,
                         syncRequested := false, exportFormat := none } ∧
    (handleStatePost (handleStateGet ([] : StateStore) (some "mcp-abc") 1000).1
        { sessionId := some "mcp-abc", xml := some "X" } 2000).2
      = ApiResponse.ok (StatePostResponse.written 2) ∧
    (handleStatePost (handleStateGet ([] : StateStore) (some "mcp-abc") 1000).1
        { sessionId := some "mcp-abc", xml := some "X" } 2000).2
      ≠ ApiResponse.ok (StatePostResponse.written 1) := by
  refine ⟨by decide, by decide, by decide, by decide⟩

/-- **C4 (amended).** For an absent session whose id matches the recognized
shape, the lazy-init touch of `GET /api/state` itself performs the first
write, storing the default blank diagram: the GET answers version 1 with the
default xml (not version 0 / xml null), and the first subsequent
`POST /api/state` with an xml body returns version 2.  (version 0 / xml null
is answered only when no session state exists, i.e. for ids that do not match
the recognized shape.) -/
theorem c4_lazy_init_default_write (store : StateStore) (sid : String)
    (now now2 : Nat) (x : String)
    (habsent : getState store sid = none)
    (hshape : isLikelyMcpSessionId sid = true) :
    (handleStateGet store (some sid) now).2
      = ApiResponse.ok { xml := some DEFAULT_DIAGRAM_XML, version := 1,
                         syncRequested := false, exportFormat := none } ∧
    (handleStatePost (handleStateGet store (some sid) now).1
        { sessionId := some sid, xml := some x } now2).2
      = ApiResponse.ok (StatePostResponse.written 2) ∧
    (∀ sid2 : String, getState store sid2 = none →
      isLikelyMcpSessionId sid2 = false → sid2 ≠ "" →
      (handleStateGet store (some sid2) now).2
        = ApiResponse.ok { xml := none, version := 0,
                           syncRequested := false, exportFormat := none } ∧
      (handleStateGet store (some sid2) now).1 = store) := by
  have hne : sid ≠ "" := by
    intro hh
    subst hh
    exact absurd hshape (by decide)
  have habsent' : alistGet store sid = none := habsent
  have hstore1 : (handleStateGet store (some sid) now).1
      = (setState store sid (some DEFAULT_DIAGRAM_XML) none now).1 := by
    simp [handleStateGet, if_neg hne, ensureSessionStateInitialized, hshape, habsent']
  have hlook : getState (setState store sid (some DEFAULT_DIAGRAM_XML) none now).1 sid
      = some { xml := some DEFAULT_DIAGRAM_XML, version := 1, lastUpdated := now,
               svg := none, syncRequested := none, exportFormat := none,
               exportData := none } := by
    rw [setState_lookup]
    rw [habsent]
    rfl
  refine ⟨?_, ?_, ?_⟩
  · have : (handleStateGet store (some sid) now).2
        = ApiResponse.ok
            { xml := jsOrOptStr (some DEFAULT_DIAGRAM_XML) none, version := 1,
              syncRequested := jsTruthyOptNat none, exportFormat := none } := by
      simp only [handleStateGet, if_neg hne]
      rw [show ensureSessionStateInitialized store sid now
            = (setState store sid (some DEFAULT_DIAGRAM_XML) none now).1 by
          simp [ensureSessionStateInitialized, if_neg hne, hshape, habsent']]
      rw [show alistGet (setState store sid (some DEFAULT_DIAGRAM_XML) none now).1 sid
            = some { xml := some DEFAULT_DIAGRAM_XML, version := 1, lastUpdated := now,
                     svg := none, syncRequested := none, exportFormat := none,
                     exportData := none } from hlook]
    rw [this]
    have hdef : jsOrOptStr (some DEFAULT_DIAGRAM_XML) none = some DEFAULT_DIAGRAM_XML := by
      simp only [jsOrOptStr]
      rw [if_neg (by decide : ¬(DEFAULT_DIAGRAM_XML = ""))]
    rw [hdef]
    rfl
  · rw [hstore1]
    simp only [handleStatePost, if_neg hne, Option.isSome_none, Bool.false_eq_true,
      if_false]
    rw [show (setState (setState store sid (some DEFAULT_DIAGRAM_XML) none now).1
          sid (some x) none now2).2
        = (match getState (setState store sid (some DEFAULT_DIAGRAM_XML) none now).1 sid
            with | some st => st.version | none => 0) + 1 from rfl]
    rw [hlook]
  · intro sid2 habs2 hshape2 hne2
    have habs2' : alistGet store sid2 = none := habs2
    constructor
    · simp [handleStateGet, if_neg hne2, ensureSessionStateInitialized, hshape2, habs2']
    · simp [handleStateGet, if_neg hne2, ensureSessionStateInitialized, hshape2]

/-- Witness for C4 (amended) at `"mcp-abc"` (absent, recognized shape) and
`"other"` (absent, unrecognized shape). -/
theorem c4_witness :
    ((handleStateGet ([("x", { xml := none, version := 3,
                               lastUpdated := 0 })] : StateStore)
        (some "mcp-abc") 1000).2
      = ApiResponse.ok { xml := some DEFAULT_DIAGRAM_XML, version := 1,
                         syncRequested := false, exportFormat := none }) ∧
    ((handleStateGet ([("x", { xml := none, version := 3,
                               lastUpdated := 0 })] : StateStore)
        (some "other") 1000).2
      = ApiResponse.ok { xml := none, version := 0,
                         syncRequested := false, exportFormat := none }) := by
  have h := c4_lazy_init_default_write
    ([("x", { xml := none, version := 3, lastUpdated := 0 })] : StateStore)
    "mcp-abc" 1000 2000 "X" (by decide) (by decide)
  exact ⟨h.1, (h.2.2 "other" (by decide) (by decide) (by decide)).1⟩
